import Mathlib

/-!
Shallow embedding of `src/lab3_fsm_rescue_agent.py` (the goal-directed FSM
core: `RescueAgent`, its transition table, goal queue and cycle driver).

Modelling conventions:
* Python string state constants become the closed enumeration `AgentState`.
* `datetime.now()` timestamps are threaded as an explicit `now : Nat`
  argument; timestamps are opaque data, never compared by the code.
* Console narration (`log`, `print`) and the `execution_log` field are the
  Observer side channel, outside the modelled core; `execute_response`
  returns the action list it would log.
* Python in-place mutation becomes functional record update; `list.sort`
  with `reverse=True` (a stable descending sort) becomes the stable
  insertion sort `sortDesc`.
-/

namespace RescueFSM

/-- Enumeration `DisasterType`. -/
inductive DisasterType where
  | NONE | FLOOD | EARTHQUAKE | FIRE | LANDSLIDE
  deriving DecidableEq, Repr, Fintype

/-- The `.value` of a `DisasterType` member. -/
def DisasterType.value : DisasterType → String
  | .NONE => "None"
  | .FLOOD => "Flood"
  | .EARTHQUAKE => "Earthquake"
  | .FIRE => "Fire"
  | .LANDSLIDE => "Landslide"

/-- Enumeration `SeverityLevel`. -/
inductive SeverityLevel where
  | NONE | LOW | MODERATE | HIGH | CRITICAL
  deriving DecidableEq, Repr, Fintype

/-- The `.value` of a `SeverityLevel` member. -/
def SeverityLevel.value : SeverityLevel → Nat
  | .NONE => 0
  | .LOW => 1
  | .MODERATE => 2
  | .HIGH => 3
  | .CRITICAL => 4

/-- The five FSM state constants `STATE_IDLE` .. `STATE_COMPLETING`. -/
inductive AgentState where
  | IDLE | ALERT | ASSESSING | RESPONDING | COMPLETING
  deriving DecidableEq, Repr, Fintype

open AgentState DisasterType SeverityLevel

/-- The static transition table `VALID_TRANSITIONS`. -/
def VALID_TRANSITIONS : AgentState → List AgentState
  | IDLE => [ALERT]
  | ALERT => [ASSESSING, IDLE]
  | ASSESSING => [RESPONDING, IDLE]
  | RESPONDING => [COMPLETING]
  | COMPLETING => [IDLE]

/-- A disaster event record as produced by `DisasterEnvironment.generate_event`
(the sensor-reading and display-timestamp fields flow only into log output,
which is outside the modelled core). -/
structure DisasterEvent where
  zone : String
  zone_name : String
  disaster_type : DisasterType
  severity : SeverityLevel
  deriving DecidableEq, Repr

/-- Goal status strings `"PENDING"` / `"ACTIVE"` / `"COMPLETED"`. -/
inductive GoalStatus where
  | PENDING | ACTIVE | COMPLETED
  deriving DecidableEq, Repr

/-- Python `RescueGoal.__init__`: status starts `PENDING`. -/
structure RescueGoal where
  goal_type : String
  priority : Nat
  target_zone : String
  disaster_event : DisasterEvent
  status : GoalStatus
  created_at : Nat
  deriving DecidableEq, Repr

/-- The mutable fields of `RescueAgent` (minus `execution_log`, the
Observer side channel). -/
structure Agent where
  agent_id : String
  current_state : AgentState
  goals : List RescueGoal
  active_goal : Option RescueGoal
  state_history : List (AgentState × Nat × String)
  completed_missions : Nat
  deriving DecidableEq, Repr

/-- Python `RescueAgent.__init__`. -/
def mkAgent (agent_id : String) (now : Nat) : Agent :=
  { agent_id := agent_id
    current_state := IDLE
    goals := []
    active_goal := none
    state_history := [(IDLE, now, "Agent initialized")]
    completed_missions := 0 }

/-- Python `RescueAgent.transition_to`: validates against `VALID_TRANSITIONS`,
returns the Python method's boolean result alongside the updated agent. -/
def transitionTo (ag : Agent) (new_state : AgentState) (reason : String)
    (now : Nat) : Bool × Agent :=
  if new_state ∈ VALID_TRANSITIONS ag.current_state then
    (true, { ag with
              current_state := new_state
              state_history := ag.state_history ++ [(new_state, now, reason)] })
  else
    (false, ag)

/-- Python `RescueAgent._determine_goal`: the fixed disaster-kind → goal-kind lookup
with `GENERAL_RESCUE` default. -/
def determineGoal : DisasterType → String
  | FLOOD => "EVACUATE_AND_RESCUE"
  | EARTHQUAKE => "SEARCH_AND_RESCUE"
  | FIRE => "FIRE_SUPPRESSION_AND_RESCUE"
  | LANDSLIDE => "DEBRIS_CLEARANCE_AND_RESCUE"
  | _ => "GENERAL_RESCUE"

/-- The `RescueGoal` that `receive_alert` constructs from an event. -/
def goalOfEvent (ev : DisasterEvent) (now : Nat) : RescueGoal :=
  { goal_type := determineGoal ev.disaster_type
    priority := ev.severity.value
    target_zone := ev.zone
    disaster_event := ev
    status := .PENDING
    created_at := now }

/-- Python `RescueAgent.receive_alert`. -/
def receiveAlert (ag : Agent) (event : Option DisasterEvent) (now : Nat) :
    Agent :=
  match event with
  | none => ag
  | some ev =>
    let ag1 := { ag with goals := ag.goals ++ [goalOfEvent ev now] }
    if ag1.current_state = IDLE then
      (transitionTo ag1 ALERT
        ("Disaster alert: " ++ ev.disaster_type.value ++ " in " ++ ev.zone)
        now).2
    else
      ag1

/-- Stable insertion step for `sortDesc`: `g` goes in front of the first
element whose priority does not exceed it, hence before all equal-priority
elements inserted from further right in the original list. -/
def insertDesc (g : RescueGoal) : List RescueGoal → List RescueGoal
  | [] => [g]
  | h :: t => if h.priority ≤ g.priority then g :: h :: t
              else h :: insertDesc g t

/-- Python `self.goals.sort(key=lambda g: g.priority, reverse=True)`: the stable
descending-by-priority sort (Python's sort is stable; any stable descending
sort produces the same list, here realised as insertion sort). -/
def sortDesc : List RescueGoal → List RescueGoal
  | [] => []
  | h :: t => insertDesc h (sortDesc t)

/-- Python `RescueAgent.assess_situation`. -/
def assessSituation (ag : Agent) (now : Nat) : Agent :=
  if ag.goals = [] then
    (transitionTo ag IDLE "No pending goals" now).2
  else
    match sortDesc ag.goals with
    | [] => ag
    | g :: rest =>
      let g' := { g with status := GoalStatus.ACTIVE }
      let ag1 := { ag with goals := rest, active_goal := some g' }
      (transitionTo ag1 ASSESSING ("Assessing " ++ g'.goal_type) now).2

/-- The `base_actions` dict in `RescueAgent._get_response_actions`, together
with the `.get` default `["Initiating general rescue protocol"]`. -/
def baseActions : DisasterType → List String
  | FLOOD =>
    ["Deploying water rescue boats",
     "Activating flood barriers",
     "Evacuating residents to higher ground"]
  | EARTHQUAKE =>
    ["Deploying seismic rescue units",
     "Scanning collapsed structures",
     "Setting up triage stations"]
  | FIRE =>
    ["Dispatching fire suppression units",
     "Establishing firebreaks",
     "Evacuating affected buildings"]
  | LANDSLIDE =>
    ["Deploying heavy debris removal equipment",
     "Scanning for buried survivors",
     "Securing unstable terrain"]
  | _ => ["Initiating general rescue protocol"]

/-- Python `RescueAgent._get_response_actions`. -/
def getResponseActions (disaster : DisasterType) (severity : SeverityLevel) :
    List String :=
  let actions := baseActions disaster
  let actions :=
    if SeverityLevel.HIGH.value ≤ severity.value then
      actions ++ ["Requesting additional backup units",
                  "Alerting medical emergency teams"]
    else actions
  if severity = CRITICAL then
    actions ++ ["Declaring zone-wide emergency evacuation"]
  else actions

/-- Python `RescueAgent.execute_response`: returns the updated agent together with
the list of actions it logs (empty when there is no active goal). -/
def executeResponse (ag : Agent) (now : Nat) : Agent × List String :=
  match ag.active_goal with
  | none => (ag, [])
  | some g =>
    let ag1 := (transitionTo ag RESPONDING
      ("Executing " ++ g.goal_type) now).2
    let ev := g.disaster_event
    (ag1, getResponseActions ev.disaster_type ev.severity)

/-- Python `RescueAgent.complete_mission`. -/
def completeMission (ag : Agent) (now : Nat) : Agent :=
  match ag.active_goal with
  | none => ag
  | some g =>
    let g' := { g with status := GoalStatus.COMPLETED }
    let ag1 := { ag with
                  active_goal := some g'
                  completed_missions := ag.completed_missions + 1 }
    let ag2 := (transitionTo ag1 COMPLETING "Mission wrap-up" now).2
    let ag3 := { ag2 with active_goal := none }
    (transitionTo ag3 IDLE "Ready for next assignment" now).2

/-- Python `RescueAgent.run_fsm_cycle`: state dispatch (no branch matches in
`COMPLETING`, so it is a no-op there, as in `IDLE`). -/
def runFsmCycle (ag : Agent) (now : Nat) : Agent :=
  match ag.current_state with
  | IDLE => ag
  | ALERT => assessSituation ag now
  | ASSESSING => (executeResponse ag now).1
  | RESPONDING => completeMission ag now
  | COMPLETING => ag

/-- The public operations on an agent, for reachability statements. -/
inductive Op where
  | alert (event : Option DisasterEvent)
  | assess
  | execute
  | complete
  | cycle
  deriving DecidableEq, Repr

/-- Apply one public operation at time `now`. -/
def applyOp (ag : Agent) (op : Op) (now : Nat) : Agent :=
  match op with
  | .alert ev => receiveAlert ag ev now
  | .assess => assessSituation ag now
  | .execute => (executeResponse ag now).1
  | .complete => completeMission ag now
  | .cycle => runFsmCycle ag now

/-- Agent states reachable from initialization by any sequence of the
public operations. -/
inductive Reachable : Agent → Prop where
  | init (agent_id : String) (now : Nat) : Reachable (mkAgent agent_id now)
  | step {ag : Agent} (h : Reachable ag) (op : Op) (now : Nat) :
      Reachable (applyOp ag op now)

/-! ### Basic lemmas about `transitionTo` -/

theorem transitionTo_of_mem {ag : Agent} {t : AgentState} {reason : String}
    {now : Nat} (h : t ∈ VALID_TRANSITIONS ag.current_state) :
    transitionTo ag t reason now =
      (true, { ag with
                current_state := t
                state_history := ag.state_history ++ [(t, now, reason)] }) := by
  simp [transitionTo, h]

theorem transitionTo_of_not_mem {ag : Agent} {t : AgentState} {reason : String}
    {now : Nat} (h : t ∉ VALID_TRANSITIONS ag.current_state) :
    transitionTo ag t reason now = (false, ag) := by
  simp [transitionTo, h]

/-- C1: for every agent state S and target T, `transition_to(T, reason)`
fails, leaves the agent unchanged (state and history included) when T is not
in S's allowed-target set, and otherwise succeeds, sets the current state to
T and appends exactly the one entry `(T, now, reason)` to the history while
leaving the queue, active goal and mission counter alone. -/
theorem transition_to_validates_against_table (ag : Agent) (t : AgentState)
    (reason : String) (now : Nat) :
    (t ∉ VALID_TRANSITIONS ag.current_state →
      transitionTo ag t reason now = (false, ag)) ∧
    (t ∈ VALID_TRANSITIONS ag.current_state →
      (transitionTo ag t reason now).1 = true ∧
      (transitionTo ag t reason now).2.current_state = t ∧
      (transitionTo ag t reason now).2.state_history =
        ag.state_history ++ [(t, now, reason)] ∧
      (transitionTo ag t reason now).2.goals = ag.goals ∧
      (transitionTo ag t reason now).2.active_goal = ag.active_goal ∧
      (transitionTo ag t reason now).2.completed_missions =
        ag.completed_missions) := by
  constructor
  · intro h
    exact transitionTo_of_not_mem h
  · intro h
    rw [transitionTo_of_mem h]
    exact ⟨rfl, rfl, rfl, rfl, rfl, rfl⟩

/-- Witness for C1: concrete instances of both branches — from `IDLE`,
`ASSESSING` is rejected with no change while `ALERT` is committed with one
new history entry. -/
theorem transition_to_validates_against_table_witness :
    transitionTo (mkAgent "R1" 0) ASSESSING "r" 1 = (false, mkAgent "R1" 0) ∧
    (transitionTo (mkAgent "R1" 0) ALERT "go" 1).2.state_history =
      [(IDLE, 0, "Agent initialized"), (ALERT, 1, "go")] := by
  refine ⟨(transition_to_validates_against_table (mkAgent "R1" 0)
    ASSESSING "r" 1).1 (by decide), ?_⟩
  have h := (transition_to_validates_against_table (mkAgent "R1" 0)
    ALERT "go" 1).2 (by decide)
  rw [h.2.2.1]
  rfl

/-- C9: `receive_alert(None)` changes nothing at all: the result is the very
same agent (state, queue, active goal, history and counter included). -/
theorem receive_alert_none_is_noop (ag : Agent) (now : Nat) :
    receiveAlert ag none now = ag := rfl

/-- C8: invoking `execute_response()` or `complete_mission()` with no active
goal is a no-op: the agent is returned unchanged in every field, and
`execute_response` emits no actions. -/
theorem no_active_goal_is_noop (ag : Agent) (now : Nat)
    (h : ag.active_goal = none) :
    (executeResponse ag now).1 = ag ∧ (executeResponse ag now).2 = [] ∧
      completeMission ag now = ag := by
  simp [executeResponse, completeMission, h]

/-- Witness for C8: the freshly initialized agent has no active goal, and
both operations leave it untouched. -/
theorem no_active_goal_is_noop_witness :
    (executeResponse (mkAgent "R1" 0) 5).1 = mkAgent "R1" 0 ∧
    (executeResponse (mkAgent "R1" 0) 5).2 = [] ∧
    completeMission (mkAgent "R1" 0) 5 = mkAgent "R1" 0 :=
  no_active_goal_is_noop (mkAgent "R1" 0) 5 rfl

/-- C5: the response action sequence is the fixed base list of the disaster
kind (of length 3 for the four mapped kinds, length 1 otherwise), followed
by the two backup/medical actions exactly when severity is High or above,
followed by the zone-wide evacuation exactly when severity is Critical; in
particular a Critical Fire yields exactly those 6 actions in order. -/
theorem response_actions_escalation :
    (∀ (d : DisasterType) (s : SeverityLevel),
      getResponseActions d s =
        baseActions d ++
        (if SeverityLevel.HIGH.value ≤ s.value then
          ["Requesting additional backup units",
           "Alerting medical emergency teams"] else []) ++
        (if s = CRITICAL then
          ["Declaring zone-wide emergency evacuation"] else [])) ∧
    (∀ d : DisasterType,
      (baseActions d).length = if d = DisasterType.NONE then 1 else 3) ∧
    getResponseActions FIRE CRITICAL =
      ["Dispatching fire suppression units",
       "Establishing firebreaks",
       "Evacuating affected buildings",
       "Requesting additional backup units",
       "Alerting medical emergency teams",
       "Declaring zone-wide emergency evacuation"] := by
  refine ⟨?_, by decide, by decide⟩
  intro d s
  cases s <;> simp [getResponseActions, SeverityLevel.value]

/-- C4: `receive_alert(event)` with a present event appends exactly one goal
to the queue, whose kind is the fixed lookup of the disaster kind and whose
priority is the severity ordinal; the agent transitions to `ALERT` (with one
new history entry) precisely when the current state is `IDLE`, and keeps its
current state and history unchanged otherwise. -/
theorem receive_alert_event_spec (ag : Agent) (ev : DisasterEvent)
    (now : Nat) :
    (receiveAlert ag (some ev) now).goals =
      ag.goals ++ [goalOfEvent ev now] ∧
    (goalOfEvent ev now).goal_type = determineGoal ev.disaster_type ∧
    (goalOfEvent ev now).priority = ev.severity.value ∧
    (goalOfEvent ev now).status = GoalStatus.PENDING ∧
    (ag.current_state = IDLE →
      (receiveAlert ag (some ev) now).current_state = ALERT ∧
      (receiveAlert ag (some ev) now).state_history =
        ag.state_history ++
          [(ALERT, now,
            "Disaster alert: " ++ ev.disaster_type.value ++ " in " ++
              ev.zone)]) ∧
    (ag.current_state ≠ IDLE →
      (receiveAlert ag (some ev) now).current_state = ag.current_state ∧
      (receiveAlert ag (some ev) now).state_history = ag.state_history) ∧
    determineGoal FLOOD = "EVACUATE_AND_RESCUE" ∧
    determineGoal EARTHQUAKE = "SEARCH_AND_RESCUE" ∧
    determineGoal FIRE = "FIRE_SUPPRESSION_AND_RESCUE" ∧
    determineGoal LANDSLIDE = "DEBRIS_CLEARANCE_AND_RESCUE" ∧
    determineGoal DisasterType.NONE = "GENERAL_RESCUE" := by
  by_cases h : ag.current_state = IDLE
  · refine ⟨?_, rfl, rfl, rfl, fun _ => ?_, fun hc => absurd h hc,
      rfl, rfl, rfl, rfl, rfl⟩
    · simp [receiveAlert, transitionTo, h, VALID_TRANSITIONS]
    · constructor <;> simp [receiveAlert, transitionTo, h, VALID_TRANSITIONS]
  · refine ⟨?_, rfl, rfl, rfl, fun hc => absurd hc h, fun _ => ?_,
      rfl, rfl, rfl, rfl, rfl⟩
    · simp [receiveAlert, h]
    · constructor <;> simp [receiveAlert, h]

/-- Witness for C4: a Flood/High alert delivered to the fresh (Idle) agent
queues one `EVACUATE_AND_RESCUE` goal of priority 3 and moves it to
`ALERT`. -/
theorem receive_alert_event_spec_witness :
    (receiveAlert (mkAgent "R1" 0)
        (some { zone := "Zone-A", zone_name := "Residential District"
                disaster_type := FLOOD, severity := SeverityLevel.HIGH })
        1).goals =
      [{ goal_type := "EVACUATE_AND_RESCUE", priority := 3
         target_zone := "Zone-A"
         disaster_event := { zone := "Zone-A"
                             zone_name := "Residential District"
                             disaster_type := FLOOD
                             severity := SeverityLevel.HIGH }
         status := GoalStatus.PENDING, created_at := 1 }] ∧
    (receiveAlert (mkAgent "R1" 0)
        (some { zone := "Zone-A", zone_name := "Residential District"
                disaster_type := FLOOD, severity := SeverityLevel.HIGH })
        1).current_state = ALERT := by
  have h := receive_alert_event_spec (mkAgent "R1" 0)
    { zone := "Zone-A", zone_name := "Residential District"
      disaster_type := FLOOD, severity := SeverityLevel.HIGH } 1
  refine ⟨?_, (h.2.2.2.2.1 rfl).1⟩
  rw [h.1]
  rfl

/-! ### Lemmas about the stable descending sort used by `assess_situation` -/

theorem mem_insertDesc {x g : RescueGoal} {l : List RescueGoal} :
    x ∈ insertDesc g l ↔ x = g ∨ x ∈ l := by
  induction l with
  | nil => simp [insertDesc]
  | cons h t ih =>
    by_cases hc : h.priority ≤ g.priority
    · simp [insertDesc, hc]
    · simp only [insertDesc, if_neg hc, List.mem_cons, ih]
      tauto

theorem length_insertDesc (g : RescueGoal) (l : List RescueGoal) :
    (insertDesc g l).length = l.length + 1 := by
  induction l with
  | nil => rfl
  | cons h t ih =>
    by_cases hc : h.priority ≤ g.priority
    · simp [insertDesc, hc]
    · simp [insertDesc, hc, ih]

theorem length_sortDesc (l : List RescueGoal) :
    (sortDesc l).length = l.length := by
  induction l with
  | nil => rfl
  | cons h t ih => simp [sortDesc, length_insertDesc, ih]

theorem sortDesc_ne_nil {l : List RescueGoal} (h : l ≠ []) :
    sortDesc l ≠ [] := by
  intro hc
  apply h
  have hl := length_sortDesc l
  rw [hc] at hl
  exact List.length_eq_zero.mp hl.symm

theorem mem_sortDesc {x : RescueGoal} {l : List RescueGoal} :
    x ∈ sortDesc l ↔ x ∈ l := by
  induction l with
  | nil => simp [sortDesc]
  | cons h t ih => simp [sortDesc, mem_insertDesc, ih]

/-- Stability of the insertion step: inserting `g` never reorders the
elements of any single priority class relative to `g :: l`. -/
theorem filter_insertDesc (g : RescueGoal) (l : List RescueGoal) (p : Nat) :
    (insertDesc g l).filter (fun x => x.priority == p) =
      ((g :: l).filter (fun x => x.priority == p)) := by
  induction l with
  | nil => rfl
  | cons h t ih =>
    by_cases hc : h.priority ≤ g.priority
    · simp [insertDesc, hc]
    · simp only [insertDesc, if_neg hc]
      by_cases hg : g.priority = p
      · have hh : ¬ h.priority = p := by omega
        simp [List.filter_cons, hg, hh, ih]
      · by_cases hh : h.priority = p <;> simp [List.filter_cons, hg, hh, ih]

/-- Stability of `sortDesc`: each priority class comes out in its original
(insertion) order. -/
theorem filter_sortDesc (l : List RescueGoal) (p : Nat) :
    (sortDesc l).filter (fun x => x.priority == p) =
      l.filter (fun x => x.priority == p) := by
  induction l with
  | nil => rfl
  | cons h t ih =>
    rw [sortDesc, filter_insertDesc]
    by_cases hh : h.priority = p <;> simp [List.filter_cons, hh, ih]

theorem pairwise_insertDesc {l : List RescueGoal} (g : RescueGoal)
    (h : l.Pairwise (fun a b => b.priority ≤ a.priority)) :
    (insertDesc g l).Pairwise (fun a b => b.priority ≤ a.priority) := by
  induction l with
  | nil => simp [insertDesc]
  | cons hd t ih =>
    rcases List.pairwise_cons.mp h with ⟨hhd, ht⟩
    by_cases hc : hd.priority ≤ g.priority
    · rw [insertDesc, if_pos hc]
      refine List.pairwise_cons.mpr ⟨?_, h⟩
      intro x hx
      rcases List.mem_cons.mp hx with hx | hx
      · exact hx ▸ hc
      · exact le_trans (hhd x hx) hc
    · rw [insertDesc, if_neg hc]
      refine List.pairwise_cons.mpr ⟨?_, ih ht⟩
      intro x hx
      rcases mem_insertDesc.mp hx with hx | hx
      · subst hx; omega
      · exact hhd x hx

theorem pairwise_sortDesc (l : List RescueGoal) :
    (sortDesc l).Pairwise (fun a b => b.priority ≤ a.priority) := by
  induction l with
  | nil => simp [sortDesc]
  | cons h t ih => exact pairwise_insertDesc h ih

/-- The head of the sorted queue has maximal priority among all goals. -/
theorem sortDesc_head_max {l : List RescueGoal} {g : RescueGoal}
    {rest : List RescueGoal} (h : sortDesc l = g :: rest) :
    ∀ x ∈ l, x.priority ≤ g.priority := by
  intro x hx
  have hmem : x ∈ sortDesc l := mem_sortDesc.mpr hx
  rw [h] at hmem
  rcases List.mem_cons.mp hmem with hx' | hx'
  · exact hx' ▸ le_refl _
  · have hp := pairwise_sortDesc l
    rw [h] at hp
    exact (List.pairwise_cons.mp hp).1 x hx'

/-- The head of the sorted queue is the first (earliest-inserted) goal of its
priority class. -/
theorem sortDesc_head_first_of_class {l : List RescueGoal} {g : RescueGoal}
    {rest : List RescueGoal} (h : sortDesc l = g :: rest) :
    (l.filter (fun x => x.priority == g.priority)).head? = some g := by
  have hf := filter_sortDesc l g.priority
  rw [h, List.filter_cons_of_pos (by simp)] at hf
  rw [← hf]
  rfl

/-- The tail of the sorted queue keeps every priority class in insertion
order: the head's own class loses exactly its first member, every other
class is untouched. -/
theorem sortDesc_tail_filter {l : List RescueGoal} {g : RescueGoal}
    {rest : List RescueGoal} (h : sortDesc l = g :: rest) (p : Nat) :
    rest.filter (fun x => x.priority == p) =
      if g.priority = p then (l.filter (fun x => x.priority == p)).tail
      else l.filter (fun x => x.priority == p) := by
  have hf := filter_sortDesc l p
  rw [h] at hf
  by_cases hg : g.priority = p
  · rw [List.filter_cons_of_pos (by simp [hg])] at hf
    rw [if_pos hg, ← hf]
    rfl
  · rw [List.filter_cons_of_neg (by simp [hg])] at hf
    rw [if_neg hg, ← hf]

/-! ### C2: priority-max selection with FIFO tie-break -/

/-- A sample event for concrete runs (zone display name reuses the zone
id; the kind/severity are the interesting fields). -/
def exEvent (z : String) (d : DisasterType) (s : SeverityLevel) :
    DisasterEvent :=
  { zone := z, zone_name := z, disaster_type := d, severity := s }

/-- A sample pending goal as `receive_alert` would build it from
`exEvent z DisasterType.NONE s`. -/
def exGoal (z : String) (s : SeverityLevel) : RescueGoal :=
  { goal_type := determineGoal DisasterType.NONE
    priority := s.value
    target_zone := z
    disaster_event := exEvent z DisasterType.NONE s
    status := GoalStatus.PENDING
    created_at := 0 }

/-- An agent in `ALERT` holding goals of priorities `[2, 4, 4, 1]`, enqueued
in that order. -/
def exQueueAgent : Agent :=
  { agent_id := "R1"
    current_state := ALERT
    goals := [exGoal "Z1" MODERATE, exGoal "Z2" CRITICAL,
              exGoal "Z3" CRITICAL, exGoal "Z4" LOW]
    active_goal := none
    state_history := [(IDLE, 0, "Agent initialized"), (ALERT, 0, "alert")]
    completed_missions := 0 }

/-- C2: on a non-empty queue, `assess_situation` removes and activates the
head of the stable descending sort, which has maximal priority and is the
earliest-inserted goal of its priority class; the remaining queue keeps
every priority class in insertion order (the selected goal's class merely
loses its first member). In particular, for goals of priorities
`[2, 4, 4, 1]` enqueued in that order, repeated selection activates the
first priority-4 goal, then the second, then priority 2, then priority 1,
emptying the queue. -/
theorem assess_selects_priority_max_fifo (ag : Agent) (now : Nat)
    (h : ag.goals ≠ []) :
    (∃ g rest, sortDesc ag.goals = g :: rest ∧
      (assessSituation ag now).active_goal =
        some { g with status := GoalStatus.ACTIVE } ∧
      (assessSituation ag now).goals = rest ∧
      (∀ x ∈ ag.goals, x.priority ≤ g.priority) ∧
      (ag.goals.filter (fun x => x.priority == g.priority)).head? = some g ∧
      (∀ p, rest.filter (fun x => x.priority == p) =
        if g.priority = p then
          (ag.goals.filter (fun x => x.priority == p)).tail
        else ag.goals.filter (fun x => x.priority == p))) ∧
    ((assessSituation exQueueAgent 1).active_goal =
        some { exGoal "Z2" CRITICAL with status := GoalStatus.ACTIVE } ∧
      (assessSituation (assessSituation exQueueAgent 1) 2).active_goal =
        some { exGoal "Z3" CRITICAL with status := GoalStatus.ACTIVE } ∧
      (assessSituation (assessSituation (assessSituation exQueueAgent 1) 2)
          3).active_goal =
        some { exGoal "Z1" MODERATE with status := GoalStatus.ACTIVE } ∧
      (assessSituation (assessSituation (assessSituation
          (assessSituation exQueueAgent 1) 2) 3) 4).active_goal =
        some { exGoal "Z4" LOW with status := GoalStatus.ACTIVE } ∧
      (assessSituation (assessSituation (assessSituation
          (assessSituation exQueueAgent 1) 2) 3) 4).goals = []) := by
  constructor
  · cases hs : sortDesc ag.goals with
    | nil => exact absurd hs (sortDesc_ne_nil h)
    | cons g rest =>
      refine ⟨g, rest, rfl, ?_, ?_, sortDesc_head_max hs,
        sortDesc_head_first_of_class hs, sortDesc_tail_filter hs⟩
      · by_cases hm : ASSESSING ∈ VALID_TRANSITIONS ag.current_state <;>
          simp [assessSituation, h, hs, transitionTo, hm]
      · by_cases hm : ASSESSING ∈ VALID_TRANSITIONS ag.current_state <;>
          simp [assessSituation, h, hs, transitionTo, hm]
  · refine ⟨?_, ?_, ?_, ?_, ?_⟩ <;> decide

/-- Witness for C2: the general selection description instantiated on the
concrete `[2, 4, 4, 1]` queue. -/
theorem assess_selects_priority_max_fifo_witness :
    (∃ g rest, sortDesc exQueueAgent.goals = g :: rest ∧
      (assessSituation exQueueAgent 1).active_goal =
        some { g with status := GoalStatus.ACTIVE } ∧
      (assessSituation exQueueAgent 1).goals = rest ∧
      (∀ x ∈ exQueueAgent.goals, x.priority ≤ g.priority) ∧
      (exQueueAgent.goals.filter
        (fun x => x.priority == g.priority)).head? = some g ∧
      (∀ p, rest.filter (fun x => x.priority == p) =
        if g.priority = p then
          (exQueueAgent.goals.filter (fun x => x.priority == p)).tail
        else exQueueAgent.goals.filter (fun x => x.priority == p))) ∧
    ((assessSituation exQueueAgent 1).active_goal =
        some { exGoal "Z2" CRITICAL with status := GoalStatus.ACTIVE } ∧
      (assessSituation (assessSituation exQueueAgent 1) 2).active_goal =
        some { exGoal "Z3" CRITICAL with status := GoalStatus.ACTIVE } ∧
      (assessSituation (assessSituation (assessSituation exQueueAgent 1) 2)
          3).active_goal =
        some { exGoal "Z1" MODERATE with status := GoalStatus.ACTIVE } ∧
      (assessSituation (assessSituation (assessSituation
          (assessSituation exQueueAgent 1) 2) 3) 4).active_goal =
        some { exGoal "Z4" LOW with status := GoalStatus.ACTIVE } ∧
      (assessSituation (assessSituation (assessSituation
          (assessSituation exQueueAgent 1) 2) 3) 4).goals = []) :=
  assess_selects_priority_max_fifo exQueueAgent 1 (by decide)

/-! ### Step equations for the FSM operations at each concrete state -/

theorem receiveAlert_of_idle {ag : Agent} (h : ag.current_state = IDLE)
    (ev : DisasterEvent) (now : Nat) :
    receiveAlert ag (some ev) now =
      { ag with
        current_state := ALERT
        goals := ag.goals ++ [goalOfEvent ev now]
        state_history := ag.state_history ++
          [(ALERT, now,
            "Disaster alert: " ++ ev.disaster_type.value ++ " in " ++
              ev.zone)] } := by
  simp [receiveAlert, transitionTo, h, VALID_TRANSITIONS]

theorem cycle_of_idle {ag : Agent} (h : ag.current_state = IDLE) (now : Nat) :
    runFsmCycle ag now = ag := by
  simp [runFsmCycle, h]

theorem cycle_alert_empty {ag : Agent} (h : ag.current_state = ALERT)
    (hg : ag.goals = []) (now : Nat) :
    runFsmCycle ag now =
      { ag with
        current_state := IDLE
        state_history := ag.state_history ++
          [(IDLE, now, "No pending goals")] } := by
  simp [runFsmCycle, h, assessSituation, hg, transitionTo, VALID_TRANSITIONS]

theorem cycle_alert_cons {ag : Agent} {g : RescueGoal}
    {rest : List RescueGoal} (h : ag.current_state = ALERT)
    (hg : ag.goals ≠ []) (hs : sortDesc ag.goals = g :: rest) (now : Nat) :
    runFsmCycle ag now =
      { ag with
        current_state := ASSESSING
        goals := rest
        active_goal := some { g with status := GoalStatus.ACTIVE }
        state_history := ag.state_history ++
          [(ASSESSING, now, "Assessing " ++ g.goal_type)] } := by
  simp [runFsmCycle, h, assessSituation, hg, hs, transitionTo,
    VALID_TRANSITIONS]

theorem cycle_assessing {ag : Agent} {g : RescueGoal}
    (h : ag.current_state = ASSESSING) (ha : ag.active_goal = some g)
    (now : Nat) :
    runFsmCycle ag now =
      { ag with
        current_state := RESPONDING
        state_history := ag.state_history ++
          [(RESPONDING, now, "Executing " ++ g.goal_type)] } := by
  simp [runFsmCycle, h, executeResponse, ha, transitionTo, VALID_TRANSITIONS]

theorem cycle_responding {ag : Agent} {g : RescueGoal}
    (h : ag.current_state = RESPONDING) (ha : ag.active_goal = some g)
    (now : Nat) :
    runFsmCycle ag now =
      { ag with
        current_state := IDLE
        active_goal := none
        completed_missions := ag.completed_missions + 1
        state_history := ag.state_history ++
          [(COMPLETING, now, "Mission wrap-up"),
           (IDLE, now, "Ready for next assignment")] } := by
  simp [runFsmCycle, h, completeMission, ha, transitionTo, VALID_TRANSITIONS]

/-! ### Reachability invariants -/

/-- Consecutive history entries respect the transition table. -/
def HistChained (l : List (AgentState × Nat × String)) : Prop :=
  List.Chain' (fun x y => y.1 ∈ VALID_TRANSITIONS x.1) l

/-- The invariant maintained by every public operation: the history is
chained along table edges and ends at the current state; `ASSESSING` and
`RESPONDING` always carry an active goal; the transient `COMPLETING` state
is never the resting state between operations. -/
def Inv (ag : Agent) : Prop :=
  HistChained ag.state_history ∧
  ag.state_history.getLast?.map Prod.fst = some ag.current_state ∧
  (ag.current_state = ASSESSING → ag.active_goal ≠ none) ∧
  (ag.current_state = RESPONDING → ag.active_goal ≠ none) ∧
  ag.current_state ≠ COMPLETING

theorem mem_valid_ALERT (s : AgentState) :
    ALERT ∈ VALID_TRANSITIONS s ↔ s = IDLE := by
  cases s <;> simp [VALID_TRANSITIONS]

theorem mem_valid_ASSESSING (s : AgentState) :
    ASSESSING ∈ VALID_TRANSITIONS s ↔ s = ALERT := by
  cases s <;> simp [VALID_TRANSITIONS]

theorem mem_valid_RESPONDING (s : AgentState) :
    RESPONDING ∈ VALID_TRANSITIONS s ↔ s = ASSESSING := by
  cases s <;> simp [VALID_TRANSITIONS]

theorem mem_valid_COMPLETING (s : AgentState) :
    COMPLETING ∈ VALID_TRANSITIONS s ↔ s = RESPONDING := by
  cases s <;> simp [VALID_TRANSITIONS]

theorem mem_valid_IDLE (s : AgentState) :
    IDLE ∈ VALID_TRANSITIONS s ↔
      (s = ALERT ∨ s = ASSESSING ∨ s = COMPLETING) := by
  cases s <;> simp [VALID_TRANSITIONS]

theorem transitionTo_goals (ag : Agent) (t : AgentState) (r : String)
    (now : Nat) : (transitionTo ag t r now).2.goals = ag.goals := by
  unfold transitionTo; split <;> rfl

theorem transitionTo_active (ag : Agent) (t : AgentState) (r : String)
    (now : Nat) : (transitionTo ag t r now).2.active_goal = ag.active_goal := by
  unfold transitionTo; split <;> rfl

theorem transitionTo_missions (ag : Agent) (t : AgentState) (r : String)
    (now : Nat) :
    (transitionTo ag t r now).2.completed_missions = ag.completed_missions := by
  unfold transitionTo; split <;> rfl

/-- Appending one table-edge entry keeps the history chained and ending at
the new state. -/
theorem chain_append_one {l : List (AgentState × Nat × String)}
    {c t : AgentState} (hc : HistChained l)
    (hl : l.getLast?.map Prod.fst = some c) (he : t ∈ VALID_TRANSITIONS c)
    (now : Nat) (r : String) :
    HistChained (l ++ [(t, now, r)]) ∧
      (l ++ [(t, now, r)]).getLast?.map Prod.fst = some t := by
  constructor
  · refine List.chain'_append.mpr ⟨hc, List.chain'_singleton _, ?_⟩
    intro x hx y hy
    have hx' : l.getLast? = some x := hx
    rw [hx'] at hl
    simp at hl
    simp only [List.head?_cons, Option.mem_def, Option.some.injEq] at hy
    rw [← hy]
    simpa [hl] using he
  · simp

/-- The method `transition_to` preserves the chained-history part of the invariant. -/
theorem transitionTo_hist {ag : Agent} (t : AgentState) (r : String)
    (now : Nat) (hc : HistChained ag.state_history)
    (hl : ag.state_history.getLast?.map Prod.fst = some ag.current_state) :
    HistChained (transitionTo ag t r now).2.state_history ∧
      (transitionTo ag t r now).2.state_history.getLast?.map Prod.fst =
        some (transitionTo ag t r now).2.current_state := by
  by_cases hm : t ∈ VALID_TRANSITIONS ag.current_state
  · rw [transitionTo_of_mem hm]
    exact chain_append_one hc hl hm now r
  · rw [transitionTo_of_not_mem hm]
    exact ⟨hc, hl⟩

/-- The method `transition_to` preserves `Inv`, provided the target state (if the
transition can fire) keeps the active-goal obligations. -/
theorem inv_transitionTo {ag : Agent} (h : Inv ag) (t : AgentState)
    (r : String) (now : Nat)
    (hgoal : t ∈ VALID_TRANSITIONS ag.current_state →
      (t = ASSESSING → ag.active_goal ≠ none) ∧
      (t = RESPONDING → ag.active_goal ≠ none) ∧ t ≠ COMPLETING) :
    Inv (transitionTo ag t r now).2 := by
  obtain ⟨hc, hl, ha1, ha2, hnc⟩ := h
  by_cases hm : t ∈ VALID_TRANSITIONS ag.current_state
  · obtain ⟨hg1, hg2, hg3⟩ := hgoal hm
    have hh := transitionTo_hist t r now hc hl
    refine ⟨hh.1, hh.2, ?_, ?_, ?_⟩ <;>
      rw [transitionTo_of_mem hm]
    · exact hg1
    · exact hg2
    · exact hg3
  · rw [transitionTo_of_not_mem hm]
    exact ⟨hc, hl, ha1, ha2, hnc⟩

theorem inv_receiveAlert {ag : Agent} (h : Inv ag)
    (ev : Option DisasterEvent) (now : Nat) :
    Inv (receiveAlert ag ev now) := by
  cases ev with
  | none => exact h
  | some e =>
    obtain ⟨hc, hl, ha1, ha2, hnc⟩ := h
    show Inv (let ag1 := { ag with goals := ag.goals ++ [goalOfEvent e now] }
      if ag1.current_state = IDLE then
        (transitionTo ag1 ALERT
          ("Disaster alert: " ++ e.disaster_type.value ++ " in " ++ e.zone)
          now).2
      else ag1)
    have h1 : Inv { ag with goals := ag.goals ++ [goalOfEvent e now] } :=
      ⟨hc, hl, ha1, ha2, hnc⟩
    by_cases hst : ag.current_state = IDLE
    · rw [if_pos (show ({ ag with
          goals := ag.goals ++ [goalOfEvent e now] } : Agent).current_state =
            IDLE from hst)]
      exact inv_transitionTo h1 ALERT _ now (fun _ => by simp)
    · rw [if_neg (show ¬ ({ ag with
          goals := ag.goals ++ [goalOfEvent e now] } : Agent).current_state =
            IDLE from hst)]
      exact h1

theorem inv_assessSituation {ag : Agent} (h : Inv ag) (now : Nat) :
    Inv (assessSituation ag now) := by
  by_cases hg : ag.goals = []
  · rw [assessSituation, if_pos hg]
    exact inv_transitionTo h IDLE _ now (fun _ => by simp)
  · obtain ⟨hc, hl, ha1, ha2, hnc⟩ := h
    rw [assessSituation, if_neg hg]
    cases hs : sortDesc ag.goals with
    | nil => exact absurd hs (sortDesc_ne_nil hg)
    | cons g rest =>
      have h1 : Inv { ag with
          goals := rest
          active_goal := some { g with status := GoalStatus.ACTIVE } } :=
        ⟨hc, hl, fun _ => by simp, fun _ => by simp, hnc⟩
      exact inv_transitionTo h1 ASSESSING _ now (fun _ => by simp)

theorem inv_executeResponse {ag : Agent} (h : Inv ag) (now : Nat) :
    Inv (executeResponse ag now).1 := by
  cases ha : ag.active_goal with
  | none => simpa [executeResponse, ha] using h
  | some g =>
    have he : (executeResponse ag now).1 =
        (transitionTo ag RESPONDING ("Executing " ++ g.goal_type) now).2 := by
      simp [executeResponse, ha]
    rw [he]
    exact inv_transitionTo h RESPONDING _ now (fun _ => by simp [ha])

theorem inv_completeMission {ag : Agent} (h : Inv ag) (now : Nat) :
    Inv (completeMission ag now) := by
  cases ha : ag.active_goal with
  | none => simpa [completeMission, ha] using h
  | some g =>
    obtain ⟨hc, hl, ha1, ha2, hnc⟩ := h
    cases hst : ag.current_state with
    | IDLE =>
      have he : completeMission ag now =
          { ag with active_goal := none
                    completed_missions := ag.completed_missions + 1 } := by
        simp [completeMission, ha, transitionTo, hst, VALID_TRANSITIONS]
      rw [he]
      exact ⟨hc, by simpa [hst] using hl, by simp [hst], by simp [hst],
        by simp [hst]⟩
    | ALERT =>
      have he : completeMission ag now =
          { ag with current_state := IDLE
                    active_goal := none
                    completed_missions := ag.completed_missions + 1
                    state_history := ag.state_history ++
                      [(IDLE, now, "Ready for next assignment")] } := by
        simp [completeMission, ha, transitionTo, hst, VALID_TRANSITIONS]
      rw [he]
      have hch := chain_append_one hc (by simpa [hst] using hl)
        ((mem_valid_IDLE ALERT).mpr (Or.inl rfl)) now
        "Ready for next assignment"
      exact ⟨hch.1, hch.2, by simp, by simp, by simp⟩
    | ASSESSING =>
      have he : completeMission ag now =
          { ag with current_state := IDLE
                    active_goal := none
                    completed_missions := ag.completed_missions + 1
                    state_history := ag.state_history ++
                      [(IDLE, now, "Ready for next assignment")] } := by
        simp [completeMission, ha, transitionTo, hst, VALID_TRANSITIONS]
      rw [he]
      have hch := chain_append_one hc (by simpa [hst] using hl)
        ((mem_valid_IDLE ASSESSING).mpr (Or.inr (Or.inl rfl))) now
        "Ready for next assignment"
      exact ⟨hch.1, hch.2, by simp, by simp, by simp⟩
    | RESPONDING =>
      have he : completeMission ag now =
          { ag with current_state := IDLE
                    active_goal := none
                    completed_missions := ag.completed_missions + 1
                    state_history := (ag.state_history ++
                      [(COMPLETING, now, "Mission wrap-up")]) ++
                      [(IDLE, now, "Ready for next assignment")] } := by
        simp [completeMission, ha, transitionTo, hst, VALID_TRANSITIONS]
      rw [he]
      have hch := chain_append_one hc (by simpa [hst] using hl)
        ((mem_valid_COMPLETING RESPONDING).mpr rfl) now "Mission wrap-up"
      have hch2 := chain_append_one hch.1 hch.2
        ((mem_valid_IDLE COMPLETING).mpr (Or.inr (Or.inr rfl))) now
        "Ready for next assignment"
      exact ⟨hch2.1, hch2.2, by simp, by simp, by simp⟩
    | COMPLETING => exact absurd hst hnc

theorem inv_runFsmCycle {ag : Agent} (h : Inv ag) (now : Nat) :
    Inv (runFsmCycle ag now) := by
  cases hst : ag.current_state <;> rw [runFsmCycle, hst]
  · exact h
  · exact inv_assessSituation h now
  · exact inv_executeResponse h now
  · exact inv_completeMission h now
  · exact h

theorem inv_applyOp {ag : Agent} (h : Inv ag) (op : Op) (now : Nat) :
    Inv (applyOp ag op now) := by
  cases op with
  | alert ev => exact inv_receiveAlert h ev now
  | assess => exact inv_assessSituation h now
  | execute => exact inv_executeResponse h now
  | complete => exact inv_completeMission h now
  | cycle => exact inv_runFsmCycle h now

/-- Every reachable agent state satisfies the invariant. -/
theorem reachable_inv {ag : Agent} (h : Reachable ag) : Inv ag := by
  induction h with
  | init agent_id now =>
    refine ⟨?_, ?_, ?_, ?_, ?_⟩ <;>
      simp [mkAgent, HistChained]
  | step _ op now ih => exact inv_applyOp ih op now

/-! ### History is append-only -/

theorem transitionTo_extends (ag : Agent) (t : AgentState) (r : String)
    (now : Nat) :
    ag.state_history <+: (transitionTo ag t r now).2.state_history := by
  unfold transitionTo
  split
  · exact ⟨[(t, now, r)], rfl⟩
  · exact List.prefix_rfl

/-- Prefix transport through one `transition_to` call. -/
theorem hist_extends_trans {l : List (AgentState × Nat × String)}
    {ag : Agent} (t : AgentState) (r : String) (now : Nat)
    (h : l <+: ag.state_history) :
    l <+: (transitionTo ag t r now).2.state_history :=
  h.trans (transitionTo_extends ag t r now)

theorem receiveAlert_extends (ag : Agent) (ev : Option DisasterEvent)
    (now : Nat) :
    ag.state_history <+: (receiveAlert ag ev now).state_history := by
  cases ev with
  | none => exact List.prefix_rfl
  | some e =>
    rw [receiveAlert]
    split
    · exact hist_extends_trans ALERT _ now List.prefix_rfl
    · exact List.prefix_rfl

theorem assessSituation_extends (ag : Agent) (now : Nat) :
    ag.state_history <+: (assessSituation ag now).state_history := by
  rw [assessSituation]
  split
  · exact hist_extends_trans IDLE _ now List.prefix_rfl
  · split
    · exact List.prefix_rfl
    · exact hist_extends_trans ASSESSING _ now List.prefix_rfl

theorem executeResponse_extends (ag : Agent) (now : Nat) :
    ag.state_history <+: (executeResponse ag now).1.state_history := by
  rw [executeResponse]
  split
  · exact List.prefix_rfl
  · exact hist_extends_trans RESPONDING _ now List.prefix_rfl

theorem completeMission_extends (ag : Agent) (now : Nat) :
    ag.state_history <+: (completeMission ag now).state_history := by
  rw [completeMission]
  split
  · exact List.prefix_rfl
  · exact hist_extends_trans IDLE _ now
      (hist_extends_trans COMPLETING _ now List.prefix_rfl)

theorem runFsmCycle_extends (ag : Agent) (now : Nat) :
    ag.state_history <+: (runFsmCycle ag now).state_history := by
  rw [runFsmCycle]
  split
  · exact List.prefix_rfl
  · exact assessSituation_extends ag now
  · exact executeResponse_extends ag now
  · exact completeMission_extends ag now
  · exact List.prefix_rfl

theorem applyOp_extends (ag : Agent) (op : Op) (now : Nat) :
    ag.state_history <+: (applyOp ag op now).state_history := by
  cases op with
  | alert ev => exact receiveAlert_extends ag ev now
  | assess => exact assessSituation_extends ag now
  | execute => exact executeResponse_extends ag now
  | complete => exact completeMission_extends ag now
  | cycle => exact runFsmCycle_extends ag now

/-- C7: in every reachable agent state, consecutive history entries follow
the static transition table, the last entry's state is the current state,
and every public operation only appends to the history. -/
theorem history_chained_append_only (ag : Agent) (h : Reachable ag)
    (op : Op) (now : Nat) :
    List.Chain' (fun x y => y.1 ∈ VALID_TRANSITIONS x.1) ag.state_history ∧
    ag.state_history.getLast?.map Prod.fst = some ag.current_state ∧
    ag.state_history <+: (applyOp ag op now).state_history := by
  obtain ⟨hc, hl, -⟩ := reachable_inv h
  exact ⟨hc, hl, applyOp_extends ag op now⟩

/-- Witness for C7: the invariant evaluated on the freshly initialized
agent and one `cycle` step. -/
theorem history_chained_append_only_witness :
    List.Chain' (fun x y => y.1 ∈ VALID_TRANSITIONS x.1)
      (mkAgent "R1" 0).state_history ∧
    (mkAgent "R1" 0).state_history.getLast?.map Prod.fst =
      some (mkAgent "R1" 0).current_state ∧
    (mkAgent "R1" 0).state_history <+:
      (applyOp (mkAgent "R1" 0) Op.cycle 1).state_history :=
  history_chained_append_only (mkAgent "R1" 0) (Reachable.init "R1" 0)
    Op.cycle 1

/-! ### C10: bounded return to Idle -/

theorem cycle_alert_empty_state {ag : Agent} (h : ag.current_state = ALERT)
    (hg : ag.goals = []) (now : Nat) :
    (runFsmCycle ag now).current_state = IDLE := by
  rw [cycle_alert_empty h hg]

theorem cycle_alert_cons_state {ag : Agent} {g : RescueGoal}
    {rest : List RescueGoal} (h : ag.current_state = ALERT)
    (hg : ag.goals ≠ []) (hs : sortDesc ag.goals = g :: rest) (now : Nat) :
    (runFsmCycle ag now).current_state = ASSESSING ∧
      (runFsmCycle ag now).active_goal =
        some { g with status := GoalStatus.ACTIVE } := by
  rw [cycle_alert_cons h hg hs]
  exact ⟨rfl, rfl⟩

theorem cycle_assessing_state {ag : Agent} {g : RescueGoal}
    (h : ag.current_state = ASSESSING) (ha : ag.active_goal = some g)
    (now : Nat) :
    (runFsmCycle ag now).current_state = RESPONDING ∧
      (runFsmCycle ag now).active_goal = some g := by
  rw [cycle_assessing h ha]
  exact ⟨rfl, ha⟩

theorem cycle_responding_state {ag : Agent} {g : RescueGoal}
    (h : ag.current_state = RESPONDING) (ha : ag.active_goal = some g)
    (now : Nat) :
    (runFsmCycle ag now).current_state = IDLE := by
  rw [cycle_responding h ha]

/-- C10: from any reachable agent state, one `run_fsm_cycle` step takes
`ALERT` to `ASSESSING` or `IDLE`, `ASSESSING` to `RESPONDING` (an active
goal is always present there), and `RESPONDING` to `IDLE`; hence from any
reachable non-`IDLE` state, three steps always land in `IDLE` — the
driver's stepping loop terminates. -/
theorem cycles_return_to_idle (ag : Agent) (h : Reachable ag)
    (t1 t2 t3 : Nat) :
    (ag.current_state = ALERT →
      (runFsmCycle ag t1).current_state = ASSESSING ∨
        (runFsmCycle ag t1).current_state = IDLE) ∧
    (ag.current_state = ASSESSING →
      (runFsmCycle ag t1).current_state = RESPONDING) ∧
    (ag.current_state = RESPONDING →
      (runFsmCycle ag t1).current_state = IDLE) ∧
    (ag.current_state ≠ IDLE →
      (runFsmCycle (runFsmCycle (runFsmCycle ag t1) t2) t3).current_state =
        IDLE) := by
  obtain ⟨-, -, hassess, hresp, hnc⟩ := reachable_inv h
  refine ⟨?_, ?_, ?_, ?_⟩
  · intro hst
    by_cases hg : ag.goals = []
    · exact Or.inr (cycle_alert_empty_state hst hg t1)
    · cases hs : sortDesc ag.goals with
      | nil => exact absurd hs (sortDesc_ne_nil hg)
      | cons g rest => exact Or.inl (cycle_alert_cons_state hst hg hs t1).1
  · intro hst
    obtain ⟨g, ha⟩ := Option.ne_none_iff_exists'.mp (hassess hst)
    exact (cycle_assessing_state hst ha t1).1
  · intro hst
    obtain ⟨g, ha⟩ := Option.ne_none_iff_exists'.mp (hresp hst)
    exact cycle_responding_state hst ha t1
  · intro hne
    cases hst : ag.current_state with
    | IDLE => exact absurd hst hne
    | ALERT =>
      by_cases hg : ag.goals = []
      · have s1 := cycle_alert_empty_state hst hg t1
        have s2 : (runFsmCycle (runFsmCycle ag t1) t2).current_state =
            IDLE := by
          rw [cycle_of_idle s1]
          exact s1
        rw [cycle_of_idle s2]
        exact s2
      · cases hs : sortDesc ag.goals with
        | nil => exact absurd hs (sortDesc_ne_nil hg)
        | cons g rest =>
          have s1 := cycle_alert_cons_state hst hg hs t1
          have s2 := cycle_assessing_state s1.1 s1.2 t2
          exact cycle_responding_state s2.1 s2.2 t3
    | ASSESSING =>
      obtain ⟨g, ha⟩ := Option.ne_none_iff_exists'.mp (hassess hst)
      have s1 := cycle_assessing_state hst ha t1
      have s2 := cycle_responding_state s1.1 s1.2 t2
      rw [cycle_of_idle s2]
      exact s2
    | RESPONDING =>
      obtain ⟨g, ha⟩ := Option.ne_none_iff_exists'.mp (hresp hst)
      have s1 := cycle_responding_state hst ha t1
      have s2 : (runFsmCycle (runFsmCycle ag t1) t2).current_state =
          IDLE := by
        rw [cycle_of_idle s1]
        exact s1
      rw [cycle_of_idle s2]
      exact s2
    | COMPLETING => exact absurd hst hnc

/-- Witness for C10: after delivering one Critical Fire alert to the fresh
agent (a reachable `ALERT` state), three cycle steps return it to `IDLE`. -/
theorem cycles_return_to_idle_witness :
    (runFsmCycle (runFsmCycle (runFsmCycle
      (receiveAlert (mkAgent "R1" 0)
        (some (exEvent "Z1" FIRE CRITICAL)) 1) 2) 3) 4).current_state =
      IDLE :=
  (cycles_return_to_idle
    (receiveAlert (mkAgent "R1" 0) (some (exEvent "Z1" FIRE CRITICAL)) 1)
    (Reachable.step (Reachable.init "R1" 0)
      (Op.alert (some (exEvent "Z1" FIRE CRITICAL))) 1)
    2 3 4).2.2.2 (by decide)

/-! ### C3: the full mission cycle -/

/-- One driver round: deliver one event, then step the FSM (three steps
bring any freshly alerted agent back to `IDLE`, as proved below). -/
def runMissions : Agent → List (DisasterEvent × Nat) → Agent
  | ag, [] => ag
  | ag, (e, t) :: rest =>
    runMissions
      (runFsmCycle (runFsmCycle (runFsmCycle (receiveAlert ag (some e) t) t)
        t) t) rest

/-- The explicit result of one alert followed by three FSM steps from
`IDLE`: the head `g` of the sorted enlarged queue is processed to
completion, five history entries are appended. -/
theorem full_cycle_eq {ag : Agent} (e : DisasterEvent) (t1 t2 t3 t4 : Nat)
    {g : RescueGoal} {rest : List RescueGoal}
    (h : ag.current_state = IDLE)
    (hs : sortDesc (ag.goals ++ [goalOfEvent e t1]) = g :: rest) :
    runFsmCycle (runFsmCycle (runFsmCycle (receiveAlert ag (some e) t1) t2)
        t3) t4 =
      { ag with
        current_state := IDLE
        goals := rest
        active_goal := none
        completed_missions := ag.completed_missions + 1
        state_history := ag.state_history ++
          [(ALERT, t1,
            "Disaster alert: " ++ e.disaster_type.value ++ " in " ++ e.zone),
           (ASSESSING, t2, "Assessing " ++ g.goal_type),
           (RESPONDING, t3, "Executing " ++ g.goal_type),
           (COMPLETING, t4, "Mission wrap-up"),
           (IDLE, t4, "Ready for next assignment")] } := by
  simp [runFsmCycle, receiveAlert, assessSituation, executeResponse,
    completeMission, transitionTo, VALID_TRANSITIONS, h, hs]

/-- Driving any number of single-goal missions from a fresh agent: the
agent ends `IDLE` with an empty queue and one completed mission per
event. -/
theorem runMissions_spec (events : List (DisasterEvent × Nat)) :
    ∀ ag : Agent, ag.current_state = IDLE → ag.goals = [] →
      (runMissions ag events).current_state = IDLE ∧
      (runMissions ag events).goals = [] ∧
      (runMissions ag events).completed_missions =
        ag.completed_missions + events.length := by
  induction events with
  | nil =>
    intro ag h hg
    exact ⟨h, hg, rfl⟩
  | cons p rest ih =>
    obtain ⟨e, t⟩ := p
    intro ag h hg
    have hs : sortDesc (ag.goals ++ [goalOfEvent e t]) =
        goalOfEvent e t :: [] := by
      rw [hg]
      rfl
    have he := full_cycle_eq e t t t t h hs
    obtain ⟨h1, h2, h3⟩ := ih
      (runFsmCycle (runFsmCycle (runFsmCycle (receiveAlert ag (some e) t) t)
        t) t) (by rw [he]) (by rw [he])
    have hm : (runFsmCycle (runFsmCycle (runFsmCycle
        (receiveAlert ag (some e) t) t) t) t).completed_missions =
        ag.completed_missions + 1 := by
      rw [he]
    rw [runMissions]
    refine ⟨h1, h2, ?_⟩
    rw [h3, hm, List.length_cons]
    omega

/-- C3: from any `IDLE` agent, delivering one event and stepping the FSM
returns to `IDLE` after exactly three cycle steps (via `ALERT`,
`ASSESSING`, `RESPONDING`), increments `completed_missions` by exactly 1
and appends exactly 5 history entries, one per transition (the last two
both from `complete_mission`); consequently N such rounds from a fresh
agent complete N missions and leave the queue empty. -/
theorem full_cycle_counts (ag : Agent) (e : DisasterEvent)
    (t1 t2 t3 t4 : Nat) (h : ag.current_state = IDLE) :
    ((receiveAlert ag (some e) t1).current_state = ALERT ∧
      (runFsmCycle (receiveAlert ag (some e) t1) t2).current_state =
        ASSESSING ∧
      (runFsmCycle (runFsmCycle (receiveAlert ag (some e) t1) t2)
        t3).current_state = RESPONDING ∧
      (runFsmCycle (runFsmCycle (runFsmCycle (receiveAlert ag (some e) t1)
        t2) t3) t4).current_state = IDLE ∧
      (runFsmCycle (runFsmCycle (runFsmCycle (receiveAlert ag (some e) t1)
        t2) t3) t4).completed_missions = ag.completed_missions + 1 ∧
      (runFsmCycle (runFsmCycle (runFsmCycle (receiveAlert ag (some e) t1)
        t2) t3) t4).state_history.map Prod.fst =
        ag.state_history.map Prod.fst ++
          [ALERT, ASSESSING, RESPONDING, COMPLETING, IDLE] ∧
      (runFsmCycle (runFsmCycle (runFsmCycle (receiveAlert ag (some e) t1)
        t2) t3) t4).state_history.length = ag.state_history.length + 5) ∧
    (∀ (agent_id : String) (t0 : Nat)
        (events : List (DisasterEvent × Nat)),
      (runMissions (mkAgent agent_id t0) events).current_state = IDLE ∧
      (runMissions (mkAgent agent_id t0) events).completed_missions =
        events.length ∧
      (runMissions (mkAgent agent_id t0) events).goals = []) := by
  constructor
  · have hg1 : (ag.goals ++ [goalOfEvent e t1]) ≠ [] := by simp
    cases hs : sortDesc (ag.goals ++ [goalOfEvent e t1]) with
    | nil => exact absurd hs (sortDesc_ne_nil hg1)
    | cons g rest =>
      have he := full_cycle_eq e t1 t2 t3 t4 h hs
      have s1 : (receiveAlert ag (some e) t1).current_state = ALERT := by
        rw [receiveAlert_of_idle h e t1]
      have s2 := cycle_alert_cons_state s1 (by
        rw [receiveAlert_of_idle h e t1]; exact hg1) (by
        rw [receiveAlert_of_idle h e t1]; exact hs) t2
      have s3 := cycle_assessing_state s2.1 s2.2 t3
      refine ⟨s1, s2.1, s3.1, ?_, ?_, ?_, ?_⟩ <;> rw [he] <;> simp
  · intro agent_id t0 events
    obtain ⟨h1, h2, h3⟩ := runMissions_spec events (mkAgent agent_id t0)
      rfl rfl
    refine ⟨h1, ?_, h2⟩
    rw [h3]
    simp [mkAgent]

/-- Witness for C3: one Critical Fire mission from the fresh agent
completes 1 mission with 6 total history entries, and two driver rounds
complete 2 missions. -/
theorem full_cycle_counts_witness :
    (runFsmCycle (runFsmCycle (runFsmCycle (receiveAlert (mkAgent "R1" 0)
      (some (exEvent "Z1" FIRE CRITICAL)) 1) 2) 3) 4).completed_missions =
      1 ∧
    (runFsmCycle (runFsmCycle (runFsmCycle (receiveAlert (mkAgent "R1" 0)
      (some (exEvent "Z1" FIRE CRITICAL)) 1) 2) 3)
        4).state_history.length = 6 ∧
    (runMissions (mkAgent "R1" 0)
      [(exEvent "Z1" FIRE CRITICAL, 1),
       (exEvent "Z2" FLOOD LOW, 2)]).completed_missions = 2 := by
  have h := full_cycle_counts (mkAgent "R1" 0) (exEvent "Z1" FIRE CRITICAL)
    1 2 3 4 rfl
  exact ⟨h.1.2.2.2.2.1, h.1.2.2.2.2.2.2,
    (h.2 "R1" 0 [(exEvent "Z1" FIRE CRITICAL, 1),
      (exEvent "Z2" FLOOD LOW, 2)]).2.1⟩

/-! ### C6: assess on an empty queue -/

/-- A reachable agent in `RESPONDING` with an empty queue and an active
goal: fresh agent, one alert, two cycle steps. -/
def c6RespondingAgent : Agent :=
  runFsmCycle (runFsmCycle (receiveAlert (mkAgent "R1" 0)
    (some (exEvent "Z1" FIRE CRITICAL)) 1) 2) 3

/-- Counterexample to C6 as stated: invoking `assess_situation` with an
empty goal queue does not always lead to `IDLE` with no active goal — from
the reachable `RESPONDING` state above, the `IDLE` transition is rejected
by the table, the state stays `RESPONDING` and the active goal remains
set. -/
theorem assess_empty_queue_counterexample :
    c6RespondingAgent.goals = [] ∧
    (assessSituation c6RespondingAgent 4).current_state = RESPONDING ∧
    (assessSituation c6RespondingAgent 4).current_state ≠ IDLE ∧
    (assessSituation c6RespondingAgent 4).active_goal ≠ none := by
  decide

/-- C6 (amended): whenever `assess` is invoked with an empty goal queue in
state `AlertReceived` (the only state in which the FSM cycle invokes it)
and with no active goal, the agent transitions to `Idle` with reason
`"No pending goals"`, selects nothing, and afterwards has no active
goal. -/
theorem assess_empty_queue_from_alert (ag : Agent) (now : Nat)
    (hst : ag.current_state = ALERT) (hg : ag.goals = [])
    (ha : ag.active_goal = none) :
    (assessSituation ag now).current_state = IDLE ∧
    (assessSituation ag now).state_history =
      ag.state_history ++ [(IDLE, now, "No pending goals")] ∧
    (assessSituation ag now).goals = [] ∧
    (assessSituation ag now).active_goal = none := by
  simp [assessSituation, hg, transitionTo, hst, VALID_TRANSITIONS, ha]

/-- Witness for C6 (amended): a concrete `ALERT` agent with an empty queue
and no active goal falls back to `IDLE`. -/
theorem assess_empty_queue_from_alert_witness :
    (assessSituation
      { agent_id := "R1", current_state := ALERT, goals := []
        active_goal := none
        state_history := [(IDLE, 0, "Agent initialized"), (ALERT, 1, "a")]
        completed_missions := 0 } 2).current_state = IDLE ∧
    (assessSituation
      { agent_id := "R1", current_state := ALERT, goals := []
        active_goal := none
        state_history := [(IDLE, 0, "Agent initialized"), (ALERT, 1, "a")]
        completed_missions := 0 } 2).state_history =
      [(IDLE, 0, "Agent initialized"), (ALERT, 1, "a")] ++
        [(IDLE, 2, "No pending goals")] ∧
    (assessSituation
      { agent_id := "R1", current_state := ALERT, goals := []
        active_goal := none
        state_history := [(IDLE, 0, "Agent initialized"), (ALERT, 1, "a")]
        completed_missions := 0 } 2).goals = [] ∧
    (assessSituation
      { agent_id := "R1", current_state := ALERT, goals := []
        active_goal := none
        state_history := [(IDLE, 0, "Agent initialized"), (ALERT, 1, "a")]
        completed_missions := 0 } 2).active_goal = none :=
  assess_empty_queue_from_alert
    { agent_id := "R1", current_state := ALERT, goals := []
      active_goal := none
      state_history := [(IDLE, 0, "Agent initialized"), (ALERT, 1, "a")]
      completed_missions := 0 } 2 rfl rfl rfl

end RescueFSM
